import Mathlib

/-!
Verification of the DeepSeek distributed-inference API service against its
natural-language specification.

The embedding models `src/api/main.py` (HTTP handlers, request lifecycle,
message formatting, token accounting, metrics middleware) and
`src/api/config/settings.py` (configuration validation).  The cluster
manager and admission controller live in `utils/`, which is not part of the
provided sources; those parts are modelled from the specification and are
marked as such in their doc comments.

The inference engine (vLLM) and the tokenizer are external collaborators;
per the spec they are modelled as an abstract capability producing a finite
sequence of outputs, each carrying a text field and an optional
finish_reason, and an abstract `enc : String → Nat` token-counting
function.
-/

/-- Role and content of one chat message (the ChatMessage pydantic model in
`src/api/main.py`). -/
structure ChatMessage where
  role : String
  content : String
deriving DecidableEq, Repr

/-- Loop body of `format_messages` in `src/api/main.py`: the running string
`formatted` is extended with a prefixed line for each message whose role is
exactly "system", "user" or "assistant"; any other role leaves `formatted`
unchanged. -/
def format_loop (formatted : String) : List ChatMessage → String
  | [] => formatted
  | msg :: rest =>
    if msg.role = "system" then
      format_loop (formatted ++ ("System: " ++ msg.content ++ "\n")) rest
    else if msg.role = "user" then
      format_loop (formatted ++ ("User: " ++ msg.content ++ "\n")) rest
    else if msg.role = "assistant" then
      format_loop (formatted ++ ("Assistant: " ++ msg.content ++ "\n")) rest
    else
      format_loop formatted rest

/-- `format_messages` from `src/api/main.py`: formats the conversation into
the model prompt and appends the trailing "Assistant: " marker. -/
def format_messages (messages : List ChatMessage) : String :=
  format_loop "" messages ++ "Assistant: "

/-- Per-message contribution to the prompt, as the spec describes it: a
role-prefixed line terminated by a newline, or the empty string for an
unrecognised role. -/
def message_line (msg : ChatMessage) : String :=
  if msg.role = "system" then "System: " ++ msg.content ++ "\n"
  else if msg.role = "user" then "User: " ++ msg.content ++ "\n"
  else if msg.role = "assistant" then "Assistant: " ++ msg.content ++ "\n"
  else ""

/-- Concatenation of a list of strings in order. -/
def concat_lines : List String → String
  | [] => ""
  | s :: rest => s ++ concat_lines rest

theorem format_loop_cons (acc : String) (m : ChatMessage) (rest : List ChatMessage) :
    format_loop acc (m :: rest) = format_loop (acc ++ message_line m) rest := by
  simp only [format_loop, message_line]
  split_ifs <;> first
  | rfl
  | rw [String.append_empty]

theorem format_loop_eq (msgs : List ChatMessage) (acc : String) :
    format_loop acc msgs = acc ++ concat_lines (msgs.map message_line) := by
  induction msgs generalizing acc with
  | nil => rw [format_loop, List.map_nil, concat_lines, String.append_empty]
  | cons m rest ih =>
    rw [format_loop_cons, ih, List.map_cons, concat_lines, String.append_assoc]

/-- C10: `format_messages` returns the in-order concatenation of
"System: "/"User: "/"Assistant: " prefixed newline-terminated lines for
messages whose role is exactly "system", "user" or "assistant" (any other
role contributes the empty string, see `message_line`), followed by the
trailing "Assistant: " marker; hence the result always ends with
"Assistant: ", and the empty message list yields exactly "Assistant: ". -/
theorem format_messages_concatenation (messages : List ChatMessage) :
    format_messages messages =
      concat_lines (messages.map message_line) ++ "Assistant: " ∧
    format_messages [] = "Assistant: " ∧
    ∃ p, format_messages messages = p ++ "Assistant: " := by
  refine ⟨?_, rfl, ?_⟩
  · rw [format_messages, format_loop_eq, String.empty_append]
  · exact ⟨format_loop "" messages, rfl⟩

/-- Health-check response model (the HealthResponse pydantic model in
`src/api/main.py`); the uptime float is modelled as an integer duration. -/
structure HealthResponse where
  status : String
  model_loaded : Bool
  cluster_status : String
  node_id : String
  uptime : Int
deriving DecidableEq, Repr

/-- `health_check` from `src/api/main.py`.  `llm_engine_loaded` models
`llm_engine is not None`; `cluster_manager_status` models
`cluster_manager.get_status() if cluster_manager else "unknown"`; `node_id`
and `start_time` come from the Settings instance, `now` models
`time.time()`. -/
def health_check (llm_engine_loaded : Bool) (cluster_manager_status : Option String)
    (node_id : String) (start_time now : Int) : HealthResponse :=
  { status := if llm_engine_loaded then "healthy" else "loading"
    model_loaded := llm_engine_loaded
    cluster_status :=
      match cluster_manager_status with
      | some st => st
      | none => "unknown"
    node_id := node_id
    uptime := now - start_time }

/-- C7: the health check always reports the configured node_id, the uptime
`now - start_time`, a model-loaded flag equal to whether the engine is
initialized, and the cluster status; its status field is "healthy" exactly
when the model-loaded flag is true and "loading" otherwise. -/
theorem health_check_reports_node_state (loaded : Bool) (cstat : Option String)
    (nid st : String) (t0 now : Int) :
    (health_check loaded cstat nid t0 now).node_id = nid ∧
    (health_check loaded cstat nid t0 now).uptime = now - t0 ∧
    (health_check loaded cstat nid t0 now).model_loaded = loaded ∧
    ((health_check loaded cstat nid t0 now).status = "healthy" ↔ loaded = true) ∧
    ((health_check loaded cstat nid t0 now).status = "loading" ↔ loaded = false) ∧
    (health_check loaded (some st) nid t0 now).cluster_status = st ∧
    (health_check loaded none nid t0 now).cluster_status = "unknown" := by
  cases loaded <;>
    refine ⟨rfl, rfl, rfl, ?_, ?_, rfl, rfl⟩ <;>
    simp [health_check]

/-- Shared mutable metric state touched by the request-metrics middleware:
the ACTIVE_REQUESTS gauge and the REQUEST_COUNT counter of
`src/api/main.py`. -/
structure MetricsState where
  active_requests : Int
  request_count : Nat
deriving DecidableEq, Repr

/-- `metrics_middleware` from `src/api/main.py`: increments ACTIVE_REQUESTS,
runs the downstream handler, bumps REQUEST_COUNT on success only, and in a
`finally` block decrements ACTIVE_REQUESTS on every exit path.  The
downstream call is modelled as an `Except` value: `ok` is normal
completion, `error` covers every exceptional exit (error, cancellation,
timeout — in the source all of these unwind through the same `finally`). -/
def metrics_middleware {E R : Type} (s : MetricsState) (call_next : Except E R) :
    MetricsState × Except E R :=
  let s1 : MetricsState := { s with active_requests := s.active_requests + 1 }
  match call_next with
  | Except.ok response =>
    let s2 : MetricsState := { s1 with request_count := s1.request_count + 1 }
    ({ s2 with active_requests := s2.active_requests - 1 }, Except.ok response)
  | Except.error e =>
    ({ s1 with active_requests := s1.active_requests - 1 }, Except.error e)

/-- C5: for every request entering the middleware, the in-flight gauge is
incremented once and decremented exactly once on every exit path — normal
completion and every exceptional exit (error, cancellation, timeout) — so
after the request terminates the gauge returns to its prior value,
regardless of how it terminates; the downstream outcome is passed through
unchanged. -/
theorem metrics_middleware_releases_on_every_exit {E R : Type}
    (s : MetricsState) (call_next : Except E R) :
    (metrics_middleware s call_next).1.active_requests = s.active_requests ∧
    (metrics_middleware s call_next).2 = call_next := by
  cases call_next <;> simp [metrics_middleware]

/-- Python truthiness of an optional string, as used by
`not self.master_node` in `Settings._validate_config`: `None` and the empty
string are falsy. -/
def py_str_truthy : Option String → Bool
  | none => false
  | some s => !(s == "")

/-- Configuration fields of the Settings class in
`src/api/config/settings.py` that the modelled behavior reads, with their
source defaults (the float `gpu_memory_utilization` is modelled as a
rational). -/
structure Settings where
  cluster_enabled : Bool := true
  master_node : Option String := none
  node_type : String := "worker"
  tensor_parallel_size : Int := 1
  gpu_memory_utilization : Rat := 85/100
  max_concurrent_requests : Int := 100
deriving DecidableEq, Repr

/-- `Settings._validate_config` from `src/api/config/settings.py`: the three
ValueError checks, applied in source order; `Except.error` models a raised
ValueError (so `Except.ok` means the constructor returned normally). -/
def validate_config (s : Settings) : Except String Unit :=
  if s.cluster_enabled = true ∧ py_str_truthy s.master_node = false ∧
      s.node_type = "worker" then
    Except.error "集群模式下工作节点必须指定主节点地址"
  else if s.tensor_parallel_size < 1 then
    Except.error "张量并行大小必须大于0"
  else if s.gpu_memory_utilization ≤ 0 ∨ 1 < s.gpu_memory_utilization then
    Except.error "GPU内存利用率必须在0-1之间"
  else
    Except.ok ()

/-- C8: constructing Settings with all default field values raises a
ValueError (cluster mode defaults to enabled, node_type to "worker", and no
master_node is set, so the first check fires); conversely every Settings
instance whose validation succeeds has tensor_parallel_size ≥ 1 and
gpu_memory_utilization in (0, 1]. -/
theorem settings_default_invalid_and_bounds :
    validate_config {} = Except.error "集群模式下工作节点必须指定主节点地址" ∧
    ∀ s : Settings, validate_config s = Except.ok () →
      1 ≤ s.tensor_parallel_size ∧
      0 < s.gpu_memory_utilization ∧ s.gpu_memory_utilization ≤ 1 := by
  refine ⟨rfl, ?_⟩
  intro s h
  unfold validate_config at h
  split_ifs at h with h1 h2 h3
  push_neg at h2 h3
  exact ⟨h2, h3.1, h3.2⟩

/-- Concrete instance for `settings_default_invalid_and_bounds`: a worker
configuration that names a master node and sets the GPU utilization to 1
validates, and the proved bounds hold for it. -/
theorem settings_default_invalid_and_bounds_witness :
    1 ≤ ({ master_node := some "10.0.0.1", gpu_memory_utilization := 1 } :
        Settings).tensor_parallel_size ∧
    0 < ({ master_node := some "10.0.0.1", gpu_memory_utilization := 1 } :
        Settings).gpu_memory_utilization ∧
    ({ master_node := some "10.0.0.1", gpu_memory_utilization := 1 } :
        Settings).gpu_memory_utilization ≤ 1 :=
  settings_default_invalid_and_bounds.2
    { master_node := some "10.0.0.1", gpu_memory_utilization := 1 } rfl

/-- Modelled from the spec: rejection reasons of the Admission Controller
(spec section 4.5); the admission controller itself is not among the
provided sources (only `Settings.max_concurrent_requests` is). -/
inductive RejectReason where
  | ConcurrencyLimit
  | RateLimit
deriving DecidableEq, Repr

/-- Modelled from the spec: the result of `TryAcquire` — a Ticket, or an
immediate non-blocking rejection (spec section 4.5). -/
inductive AdmissionResult where
  | Ticket
  | Rejected (reason : RejectReason)
deriving DecidableEq, Repr

/-- Modelled from the spec: the Admission Controller's concurrency state — a
configured ceiling (`Settings.max_concurrent_requests`, default 100) and
the number of tickets currently outstanding.  Per spec section 5 access to
the shared counter is serialized, so concurrent calls are modelled as an
arbitrary interleaving (sequence) of operations. -/
structure AdmissionController where
  ceiling : Nat
  in_flight : Nat
deriving DecidableEq, Repr

/-- Modelled from the spec: non-blocking `TryAcquire` (spec section 4.5) —
issues a Ticket while the ceiling is not reached, otherwise rejects with
ConcurrencyLimit without blocking. -/
def TryAcquire (a : AdmissionController) : AdmissionController × AdmissionResult :=
  if a.in_flight < a.ceiling then
    ({ a with in_flight := a.in_flight + 1 }, AdmissionResult.Ticket)
  else
    (a, AdmissionResult.Rejected RejectReason.ConcurrencyLimit)

/-- Modelled from the spec: `Release` returns one outstanding ticket (spec
section 4.5). -/
def Release (a : AdmissionController) : AdmissionController :=
  { a with in_flight := a.in_flight - 1 }

/-- One step of an interleaving of admission operations. -/
inductive AdmissionOp where
  | acquire
  | release
deriving DecidableEq, Repr

/-- Runs an arbitrary interleaving of `TryAcquire` and `Release` calls. -/
def run_admission (a : AdmissionController) : List AdmissionOp → AdmissionController
  | [] => a
  | AdmissionOp.acquire :: rest => run_admission (TryAcquire a).1 rest
  | AdmissionOp.release :: rest => run_admission (Release a) rest

/-- Runs `n` consecutive `TryAcquire` calls and collects their results. -/
def try_acquire_seq (a : AdmissionController) :
    Nat → AdmissionController × List AdmissionResult
  | 0 => (a, [])
  | n + 1 =>
    let (a1, r) := TryAcquire a
    let (a2, rs) := try_acquire_seq a1 n
    (a2, r :: rs)

theorem tryAcquire_in_flight_le (a : AdmissionController)
    (h : a.in_flight ≤ a.ceiling) : (TryAcquire a).1.in_flight ≤ a.ceiling := by
  unfold TryAcquire
  split_ifs with hlt
  · exact hlt
  · exact h

theorem tryAcquire_ceiling (a : AdmissionController) :
    (TryAcquire a).1.ceiling = a.ceiling := by
  unfold TryAcquire
  split_ifs <;> rfl

/-- C4: with concurrency ceiling 2 and no tickets outstanding, three
`TryAcquire` calls yield exactly two Tickets and one
Rejected(ConcurrencyLimit), and after one `Release` a subsequent
`TryAcquire` succeeds; moreover, for every interleaving of `TryAcquire` and
`Release` calls the number of outstanding tickets never exceeds the
configured ceiling (and the ceiling itself never changes). -/
theorem admission_never_exceeds_ceiling :
    (try_acquire_seq ⟨2, 0⟩ 3).2 =
      [AdmissionResult.Ticket, AdmissionResult.Ticket,
        AdmissionResult.Rejected RejectReason.ConcurrencyLimit] ∧
    (TryAcquire (Release (try_acquire_seq ⟨2, 0⟩ 3).1)).2 = AdmissionResult.Ticket ∧
    ∀ (a : AdmissionController) (ops : List AdmissionOp),
      a.in_flight ≤ a.ceiling →
      (run_admission a ops).in_flight ≤ a.ceiling ∧
      (run_admission a ops).ceiling = a.ceiling := by
  refine ⟨rfl, rfl, ?_⟩
  intro a ops
  induction ops generalizing a with
  | nil => exact fun h => ⟨h, rfl⟩
  | cons op rest ih =>
    intro h
    cases op with
    | acquire =>
      have h1 := tryAcquire_in_flight_le a h
      have h2 := tryAcquire_ceiling a
      have := ih (TryAcquire a).1 (by rw [h2]; exact h1)
      rw [run_admission]
      exact ⟨h2 ▸ this.1, this.2.trans h2⟩
    | release =>
      have := ih (Release a) (Nat.le_trans (Nat.sub_le _ _) h)
      rw [run_admission]
      exact ⟨this.1, this.2⟩

/-- Concrete instance for `admission_never_exceeds_ceiling`: starting from
ceiling 2 with no tickets outstanding, the interleaving of the scenario
(three acquires, one release, one acquire) keeps the outstanding count
within the ceiling. -/
theorem admission_never_exceeds_ceiling_witness :
    (⟨2, 0⟩ : AdmissionController).in_flight ≤ (⟨2, 0⟩ : AdmissionController).ceiling ∧
    (run_admission ⟨2, 0⟩
        [AdmissionOp.acquire, AdmissionOp.acquire, AdmissionOp.acquire,
          AdmissionOp.release, AdmissionOp.acquire]).in_flight ≤
      (⟨2, 0⟩ : AdmissionController).ceiling ∧
    (run_admission ⟨2, 0⟩
        [AdmissionOp.acquire, AdmissionOp.acquire, AdmissionOp.acquire,
          AdmissionOp.release, AdmissionOp.acquire]).ceiling =
      (⟨2, 0⟩ : AdmissionController).ceiling :=
  ⟨by decide,
    (admission_never_exceeds_ceiling.2.2 ⟨2, 0⟩
      [AdmissionOp.acquire, AdmissionOp.acquire, AdmissionOp.acquire,
        AdmissionOp.release, AdmissionOp.acquire] (by decide)).1,
    (admission_never_exceeds_ceiling.2.2 ⟨2, 0⟩
      [AdmissionOp.acquire, AdmissionOp.acquire, AdmissionOp.acquire,
        AdmissionOp.release, AdmissionOp.acquire] (by decide)).2⟩

/-- Modelled from the spec: health states of a registered node (spec
section 3); the node registry and heartbeat monitor live in
`utils/cluster_manager.py`, which is not among the provided sources. -/
inductive HealthState where
  | Healthy
  | Suspect
  | Unreachable
deriving DecidableEq, Repr

/-- Modelled from the spec: the per-node circuit-breaker phase (spec
sections 3 and 4.3). -/
inductive BreakerPhase where
  | Closed
  | Open
  | HalfOpen
deriving DecidableEq, Repr

/-- Modelled from the spec: per-node BreakerState — failure counter, phase
and the time the breaker last opened (spec section 3).  The spec's rolling
failure window is simplified to a cumulative counter that a successful
outcome resets; the claim under verification does not depend on the window
shape. -/
structure BreakerRec where
  failure_count : Nat
  phase : BreakerPhase
  opened_at : Nat
deriving DecidableEq, Repr

/-- Modelled from the spec: one registry entry (spec section 3). -/
structure Node where
  node_id : String
  health : HealthState
  breaker : BreakerRec
deriving DecidableEq, Repr

/-- Modelled from the spec: the coordinator state read by routing decisions
— the registry snapshot, the round-robin rotation counter (advanced once
per routing decision), the breaker configuration and the current time. -/
structure ClusterState where
  nodes : List Node
  rr_counter : Nat
  failure_threshold : Nat
  cooldown : Nat
  now : Nat
deriving DecidableEq, Repr

/-- Modelled from the spec: `RecordOutcome` on one breaker record (spec
section 4.3) — a failure increments the counter and opens the breaker at
the threshold; a failed HalfOpen probe reopens it with a fresh cooldown; a
successful outcome (in particular a successful HalfOpen probe) closes it
and resets the counter. -/
def record_outcome (threshold now : Nat) (success : Bool) (b : BreakerRec) :
    BreakerRec :=
  if success then
    { failure_count := 0, phase := BreakerPhase.Closed, opened_at := b.opened_at }
  else
    let fc := b.failure_count + 1
    if threshold ≤ fc ∨ b.phase = BreakerPhase.HalfOpen then
      { failure_count := fc, phase := BreakerPhase.Open, opened_at := now }
    else
      { b with failure_count := fc }

/-- Modelled from the spec: one missed heartbeat window advances
Healthy → Suspect → Unreachable (spec section 3). -/
def advance_missed : HealthState → HealthState
  | HealthState.Healthy => HealthState.Suspect
  | HealthState.Suspect => HealthState.Unreachable
  | HealthState.Unreachable => HealthState.Unreachable

/-- Events driving the coordinator state: request outcomes reported by the
lifecycle manager, heartbeat arrivals and misses observed by the heartbeat
monitor, and the passage of time (which lets an Open breaker reach
HalfOpen after its cooldown). -/
inductive ClusterEvent where
  | recordOutcome (node_id : String) (success : Bool)
  | heartbeat (node_id : String)
  | missedHeartbeat (node_id : String)
  | tick (dt : Nat)
deriving DecidableEq, Repr

/-- Applies an update to the registry entry with the given id, leaving
other entries unchanged. -/
def update_node (node_id : String) (f : Node → Node) (nodes : List Node) :
    List Node :=
  nodes.map fun n => if n.node_id = node_id then f n else n

/-- Modelled from the spec: the state transition for one event (spec
sections 3, 4.2 and 4.3). -/
def apply_event (s : ClusterState) : ClusterEvent → ClusterState
  | ClusterEvent.recordOutcome nid success =>
    let f : Node → Node := fun n =>
      { n with breaker := record_outcome s.failure_threshold s.now success n.breaker }
    { s with nodes := update_node nid f s.nodes }
  | ClusterEvent.heartbeat nid =>
    let f : Node → Node := fun n => { n with health := HealthState.Healthy }
    { s with nodes := update_node nid f s.nodes }
  | ClusterEvent.missedHeartbeat nid =>
    let f : Node → Node := fun n => { n with health := advance_missed n.health }
    { s with nodes := update_node nid f s.nodes }
  | ClusterEvent.tick dt =>
    let now := s.now + dt
    let cooled : Node → Node := fun n =>
      if n.breaker.phase = BreakerPhase.Open ∧
          n.breaker.opened_at + s.cooldown ≤ now then
        { n with breaker := { n.breaker with phase := BreakerPhase.HalfOpen } }
      else n
    { s with now := now, nodes := s.nodes.map cooled }

/-- Applies a sequence of events in order. -/
def apply_events (s : ClusterState) (events : List ClusterEvent) : ClusterState :=
  events.foldl apply_event s

/-- Lexicographic code-point order on character lists (the order Python
uses to compare node-id strings). -/
def chars_le : List Char → List Char → Bool
  | [], _ => true
  | _ :: _, [] => false
  | a :: as, b :: bs =>
    if a.toNat < b.toNat then true
    else if b.toNat < a.toNat then false
    else chars_le as bs

/-- Lexicographic order on node ids. -/
def node_id_le (a b : Node) : Bool :=
  chars_le a.node_id.data b.node_id.data

/-- Inserts a node into a list sorted by node_id. -/
def insert_by_node_id (n : Node) : List Node → List Node
  | [] => [n]
  | m :: ms =>
    if node_id_le n m then n :: m :: ms else m :: insert_by_node_id n ms

/-- Modelled from the spec: nodes ordered by node_id, the deterministic
round-robin tie-break of spec section 4.4. -/
def sort_by_node_id : List Node → List Node
  | [] => []
  | n :: ns => insert_by_node_id n (sort_by_node_id ns)

/-- Modelled from the spec: the routing-eligible subset — Healthy nodes
whose breaker is Closed — ordered by node_id (spec section 4.4). -/
def eligible_nodes (s : ClusterState) : List Node :=
  sort_by_node_id (s.nodes.filter fun n =>
    decide (n.health = HealthState.Healthy ∧ n.breaker.phase = BreakerPhase.Closed))

/-- Modelled from the spec: `SelectNode` (spec section 4.4) — round-robin
rotation over the eligible subset; `none` models the NoEligibleNode
admission error. -/
def SelectNode (s : ClusterState) : Option Node :=
  if (eligible_nodes s).length = 0 then none
  else (eligible_nodes s).get? (s.rr_counter % (eligible_nodes s).length)

theorem mem_insert_by_node_id {x n : Node} {l : List Node}
    (h : x ∈ insert_by_node_id n l) : x = n ∨ x ∈ l := by
  induction l with
  | nil => simpa [insert_by_node_id] using h
  | cons m ms ih =>
    rw [insert_by_node_id] at h
    split_ifs at h with hle
    · simpa using h
    · rcases List.mem_cons.mp h with h1 | h2
      · exact Or.inr (List.mem_cons.mpr (Or.inl h1))
      · rcases ih h2 with h3 | h4
        · exact Or.inl h3
        · exact Or.inr (List.mem_cons.mpr (Or.inr h4))

theorem mem_sort_by_node_id {x : Node} {l : List Node}
    (h : x ∈ sort_by_node_id l) : x ∈ l := by
  induction l with
  | nil => simp [sort_by_node_id] at h
  | cons n ns ih =>
    rw [sort_by_node_id] at h
    rcases mem_insert_by_node_id h with h1 | h2
    · exact h1 ▸ List.mem_cons_self _ _
    · exact List.mem_cons.mpr (Or.inr (ih h2))

/-- C3: for every sequence of outcome, heartbeat and timing events applied
to any coordinator state, a node returned by `SelectNode` never has an Open
breaker — every returned node is Healthy with a Closed breaker (and when no
such node exists, `SelectNode` reports NoEligibleNode by returning
`none`). -/
theorem selectNode_never_returns_open_breaker (init : ClusterState)
    (events : List ClusterEvent) (n : Node)
    (h : SelectNode (apply_events init events) = some n) :
    n.breaker.phase ≠ BreakerPhase.Open ∧
    n.breaker.phase = BreakerPhase.Closed ∧ n.health = HealthState.Healthy := by
  unfold SelectNode at h
  split_ifs at h with hlen
  have hmem : n ∈ eligible_nodes (apply_events init events) := List.get?_mem h
  have hfil := mem_sort_by_node_id hmem
  have hprop := (List.mem_filter.mp hfil).2
  have hp := of_decide_eq_true hprop
  refine ⟨?_, hp.2, hp.1⟩
  rw [hp.2]
  intro hc
  cases hc

/-- Concrete instance for `selectNode_never_returns_open_breaker`: two
healthy nodes, node-b one failure short of the threshold; after the
lifecycle manager reports one more failure for node-b its breaker opens,
and the next routing decision selects node-a, whose breaker is Closed. -/
theorem selectNode_never_returns_open_breaker_witness :
    SelectNode (apply_events
      ⟨[⟨"node-a", HealthState.Healthy, ⟨0, BreakerPhase.Closed, 0⟩⟩,
        ⟨"node-b", HealthState.Healthy, ⟨4, BreakerPhase.Closed, 0⟩⟩], 0, 5, 60, 10⟩
      [ClusterEvent.recordOutcome "node-b" false]) =
      some ⟨"node-a", HealthState.Healthy, ⟨0, BreakerPhase.Closed, 0⟩⟩ ∧
    (⟨"node-a", HealthState.Healthy,
      (⟨0, BreakerPhase.Closed, 0⟩ : BreakerRec)⟩ : Node).breaker.phase ≠
        BreakerPhase.Open :=
  ⟨by decide,
    (selectNode_never_returns_open_breaker
      ⟨[⟨"node-a", HealthState.Healthy, ⟨0, BreakerPhase.Closed, 0⟩⟩,
        ⟨"node-b", HealthState.Healthy, ⟨4, BreakerPhase.Closed, 0⟩⟩], 0, 5, 60, 10⟩
      [ClusterEvent.recordOutcome "node-b" false]
      ⟨"node-a", HealthState.Healthy, ⟨0, BreakerPhase.Closed, 0⟩⟩
      (by decide)).1⟩

/-- One output of the engine stream, as consumed by the handlers in
`src/api/main.py` (`request_output.outputs[0]`): a text field and an
optional finish reason.  Per spec section 6 the engine capability produces
a finite sequence of text fragments, of which exactly the terminal one
carries a non-null finish_reason. -/
structure EngineOutput where
  text : String
  finish_reason : Option String
deriving DecidableEq, Repr

/-- Sampling parameters passed to the engine (the vLLM SamplingParams
constructed in `src/api/main.py`); floats are modelled as rationals.  The
defaults are vLLM's own (top_p 1, no stop list), used where
`create_completion` omits the arguments. -/
structure SamplingParams where
  temperature : Rat
  top_p : Rat := 1
  max_tokens : Int
  stop : Option (List String) := none
deriving DecidableEq, Repr

/-- Token usage block of the non-streaming response. -/
structure Usage where
  prompt_tokens : Nat
  completion_tokens : Nat
  total_tokens : Nat
deriving DecidableEq, Repr

/-- One entry of the `choices` list of the non-streaming chat response
(index, message role and content, finish reason). -/
structure ChatChoice where
  index : Nat
  role : String
  content : String
  finish_reason : Option String
deriving DecidableEq, Repr

/-- The ChatCompletionResponse pydantic model of `src/api/main.py`. -/
structure ChatCompletionResponse where
  id : String
  object : String
  created : Int
  model : String
  choices : List ChatChoice
  usage : Usage
deriving DecidableEq, Repr

/-- A raised fastapi HTTPException: status code and detail. -/
structure HTTPError where
  status_code : Nat
  detail : String
deriving DecidableEq, Repr

/-- `generate_chat_completion` from `src/api/main.py`: iterates the engine
stream keeping only the final output (modelled by `outputs.getLast?`),
raises HTTP 500 if the stream produced nothing, and otherwise builds the
response from the final output's text, counting prompt and completion
tokens with the same tokenizer capability `enc`. -/
def generate_chat_completion (enc : String → Nat) (prompt request_id model : String)
    (start_time : Int) (outputs : List EngineOutput) :
    Except HTTPError ChatCompletionResponse :=
  match outputs.getLast? with
  | none => Except.error ⟨500, "推理失败"⟩
  | some final_output =>
    let generated_text := final_output.text
    let prompt_tokens := enc prompt
    let completion_tokens := enc generated_text
    Except.ok
      { id := request_id
        object := "chat.completion"
        created := start_time
        model := model
        choices := [⟨0, "assistant", generated_text, final_output.finish_reason⟩]
        usage := ⟨prompt_tokens, completion_tokens,
          prompt_tokens + completion_tokens⟩ }

/-- One streamed chunk (the dict serialized as a `data:` line by
`stream_chat_completion` in `src/api/main.py`): the delta content is the
current engine output's text and the finish reason is that output's. -/
structure ChatChunk where
  id : String
  object : String
  created : Int
  model : String
  delta_content : String
  finish_reason : Option String
deriving DecidableEq, Repr

/-- One item yielded by the streaming generator: a serialized chunk, or the
final "data: [DONE]" termination marker. -/
inductive StreamItem where
  | chunk (c : ChatChunk)
  | done
deriving DecidableEq, Repr

/-- `stream_chat_completion` from `src/api/main.py`: yields one chunk per
engine output, in stream order, then the termination marker. -/
def stream_chat_completion (request_id model : String) (start_time : Int)
    (outputs : List EngineOutput) : List StreamItem :=
  (outputs.map fun o =>
    StreamItem.chunk
      ⟨request_id, "chat.completion.chunk", start_time, model,
        o.text, o.finish_reason⟩)
  ++ [StreamItem.done]

/-- The delta contents observed by a streaming caller, in order. -/
def streamed_delta_texts (items : List StreamItem) : List String :=
  items.filterMap fun item =>
    match item with
    | StreamItem.chunk c => some c.delta_content
    | StreamItem.done => none

/-- The ChatCompletionRequest pydantic model of `src/api/main.py`, with its
field defaults. -/
structure ChatCompletionRequest where
  model : String := "deepseek-coder"
  messages : List ChatMessage
  temperature : Rat := 7/10
  max_tokens : Int := 2048
  top_p : Rat := 9/10
  stream : Bool := false
  stop : Option (List String) := none
deriving DecidableEq, Repr

/-- What the `create_chat_completion` endpoint hands back on success:
either the streaming body (already-yielded items; an engine failure during
streaming aborts the body after the yielded chunks rather than becoming an
HTTP error, because the response has already started) or the buffered
non-streaming response. -/
inductive ChatHandlerOutput where
  | streamed (items : List StreamItem)
  | streamFailed (detail : String)
  | completed (resp : ChatCompletionResponse)
deriving DecidableEq, Repr

/-- Record of one generation request issued to the engine capability. -/
structure GenCall where
  prompt : String
  params : SamplingParams
  request_id : String
deriving DecidableEq, Repr

/-- The engine capability: `llm_engine.generate` plus the iteration of the
resulting stream, which either yields a finite list of outputs or raises
(`Except.error` carries the exception text). -/
def EngineGen : Type :=
  String → SamplingParams → String → Except String (List EngineOutput)

/-- `create_chat_completion` from `src/api/main.py`: rejects with HTTP 503
before doing anything else when the engine is not loaded; otherwise formats
the prompt, builds sampling parameters and dispatches to the streaming or
non-streaming path.  Exceptions escaping the handler body are re-raised as
HTTP 500 with the failure detail (the `except` block); the HTTPException
raised inside `generate_chat_completion` is itself caught there and
re-raised with status 500 carrying its detail.  The second component
records the generation calls issued to the engine. -/
def create_chat_completion (llm_engine : Option EngineGen) (enc : String → Nat)
    (request_id : String) (start_time : Int) (request : ChatCompletionRequest) :
    Except HTTPError ChatHandlerOutput × List GenCall :=
  match llm_engine with
  | none => (Except.error ⟨503, "模型尚未加载完成"⟩, [])
  | some gen =>
    let prompt := format_messages request.messages
    let sampling_params : SamplingParams :=
      ⟨request.temperature, request.top_p, request.max_tokens, request.stop⟩
    let call : GenCall := ⟨prompt, sampling_params, request_id⟩
    if request.stream then
      match gen prompt sampling_params request_id with
      | Except.ok outputs =>
        (Except.ok (ChatHandlerOutput.streamed
          (stream_chat_completion request_id request.model start_time outputs)),
          [call])
      | Except.error e => (Except.ok (ChatHandlerOutput.streamFailed e), [call])
    else
      match gen prompt sampling_params request_id with
      | Except.ok outputs =>
        match generate_chat_completion enc prompt request_id request.model
            start_time outputs with
        | Except.ok resp => (Except.ok (ChatHandlerOutput.completed resp), [call])
        | Except.error err => (Except.error ⟨500, err.detail⟩, [call])
      | Except.error e => (Except.error ⟨500, e⟩, [call])

/-- The dict request of the `/v1/completions` endpoint with the defaults
`request.get` supplies in `src/api/main.py`. -/
structure CompletionRequest where
  prompt : String := ""
  max_tokens : Int := 100
  temperature : Rat := 7/10
  model : String := "deepseek-coder"
deriving DecidableEq, Repr

/-- One entry of the `choices` list of the text-completion response. -/
structure CompletionChoice where
  text : String
  index : Nat
  finish_reason : Option String
deriving DecidableEq, Repr

/-- The text-completion response dict of `src/api/main.py`. -/
structure CompletionResponse where
  id : String
  object : String
  created : Int
  model : String
  choices : List CompletionChoice
deriving DecidableEq, Repr

/-- `create_completion` from `src/api/main.py`: rejects with HTTP 503
before doing anything else when the engine is not loaded; otherwise builds
sampling parameters (temperature and max_tokens only), iterates the engine
stream keeping the final output, raises HTTP 500 when the stream is empty
or the iteration fails, and otherwise returns the text-completion
response. -/
def create_completion (llm_engine : Option EngineGen) (now : Int)
    (request_id : String) (request : CompletionRequest) :
    Except HTTPError CompletionResponse × List GenCall :=
  match llm_engine with
  | none => (Except.error ⟨503, "模型尚未加载完成"⟩, [])
  | some gen =>
    let sampling_params : SamplingParams :=
      { temperature := request.temperature, max_tokens := request.max_tokens }
    let call : GenCall := ⟨request.prompt, sampling_params, request_id⟩
    match gen request.prompt sampling_params request_id with
    | Except.ok outputs =>
      match outputs.getLast? with
      | none => (Except.error ⟨500, "推理失败"⟩, [call])
      | some final_output =>
        (Except.ok
          { id := request_id
            object := "text_completion"
            created := now
            model := request.model
            choices := [⟨final_output.text, 0, final_output.finish_reason⟩] },
          [call])
    | Except.error e => (Except.error ⟨500, e⟩, [call])

/-- C1 counterexample: with the engine stream producing the fragments
"Hel", "lo", "!" (terminal fragment carrying finish_reason "stop"), the
streaming path does yield those three fragments in order, but the
non-streaming path keeps only the final output, so it returns "!" — not
the concatenation "Hello!" the claim requires. -/
theorem nonstreaming_keeps_last_fragment_counterexample :
    streamed_delta_texts (stream_chat_completion "req-0" "deepseek-coder" 0
      [⟨"Hel", none⟩, ⟨"lo", none⟩, ⟨"!", some "stop"⟩]) = ["Hel", "lo", "!"] ∧
    concat_lines ["Hel", "lo", "!"] = "Hello!" ∧
    Except.map (fun r => r.choices.map fun c => (c.content, c.finish_reason))
      (generate_chat_completion String.length "User: hi\nAssistant: " "req-0"
        "deepseek-coder" 0 [⟨"Hel", none⟩, ⟨"lo", none⟩, ⟨"!", some "stop"⟩]) =
      Except.ok [(("!" : String), some "stop")] ∧
    ("!" : String) ≠ "Hello!" := by
  refine ⟨rfl, rfl, rfl, by decide⟩

theorem streamed_delta_texts_stream (request_id model : String)
    (start_time : Int) (outputs : List EngineOutput) :
    streamed_delta_texts (stream_chat_completion request_id model start_time outputs) =
      outputs.map EngineOutput.text := by
  induction outputs with
  | nil => rfl
  | cons o rest ih =>
    simp only [stream_chat_completion, streamed_delta_texts, List.map_cons,
      List.cons_append, List.filterMap_cons] at ih ⊢
    exact congrArg (o.text :: ·) ih

/-- C1 (amended): for every finite engine stream ending in a terminal
fragment, the streaming path yields exactly the stream's fragments in
order, followed by the stream-termination marker; the non-streaming path
for the identical input returns the text and finish reason of the FINAL
output only (the concatenation of all fragments only when the stream has a
single fragment), with the same finish reason the terminal fragment
carries. -/
theorem streaming_vs_nonstreaming_lifecycle (enc : String → Nat)
    (prompt request_id model : String) (start_time : Int)
    (outputs : List EngineOutput) (final_output : EngineOutput)
    (hlast : outputs.getLast? = some final_output) :
    streamed_delta_texts (stream_chat_completion request_id model start_time outputs) =
      outputs.map EngineOutput.text ∧
    (stream_chat_completion request_id model start_time outputs).getLast? =
      some StreamItem.done ∧
    Except.map (fun r => r.choices.map fun c => (c.content, c.finish_reason))
      (generate_chat_completion enc prompt request_id model start_time outputs) =
      Except.ok [(final_output.text, final_output.finish_reason)] := by
  refine ⟨streamed_delta_texts_stream request_id model start_time outputs, ?_, ?_⟩
  · rw [stream_chat_completion, List.getLast?_concat]
  · rw [generate_chat_completion, hlast]
    rfl

/-- Concrete instance for `streaming_vs_nonstreaming_lifecycle`: the
"Hel"/"lo"/"!" stream of the spec's scenario, whose terminal fragment
carries finish_reason "stop". -/
theorem streaming_vs_nonstreaming_lifecycle_witness :
    ([⟨"Hel", none⟩, ⟨"lo", none⟩,
        (⟨"!", some "stop"⟩ : EngineOutput)] : List EngineOutput).getLast? =
      some (⟨"!", some "stop"⟩ : EngineOutput) ∧
    (streamed_delta_texts (stream_chat_completion "req-0" "deepseek-coder" 0
        [⟨"Hel", none⟩, ⟨"lo", none⟩, ⟨"!", some "stop"⟩]) =
      ([⟨"Hel", none⟩, ⟨"lo", none⟩,
          (⟨"!", some "stop"⟩ : EngineOutput)] : List EngineOutput).map
        EngineOutput.text ∧
    (stream_chat_completion "req-0" "deepseek-coder" 0
        [⟨"Hel", none⟩, ⟨"lo", none⟩, ⟨"!", some "stop"⟩]).getLast? =
      some StreamItem.done ∧
    Except.map (fun r => r.choices.map fun c => (c.content, c.finish_reason))
      (generate_chat_completion String.length "User: hi\nAssistant: " "req-0"
        "deepseek-coder" 0 [⟨"Hel", none⟩, ⟨"lo", none⟩, ⟨"!", some "stop"⟩]) =
      Except.ok [((⟨"!", some "stop"⟩ : EngineOutput).text,
        (⟨"!", some "stop"⟩ : EngineOutput).finish_reason)]) :=
  ⟨rfl,
    streaming_vs_nonstreaming_lifecycle String.length "User: hi\nAssistant: "
      "req-0" "deepseek-coder" 0
      [⟨"Hel", none⟩, ⟨"lo", none⟩, ⟨"!", some "stop"⟩]
      ⟨"!", some "stop"⟩ rfl⟩

/-- C2: whenever the non-streaming path succeeds, usage.prompt_tokens is
the token count of the formatted prompt and usage.completion_tokens is the
token count of the generated text carried in the response message, both
computed by the same tokenizer capability `enc` (a single Encode of the
full returned text, not a sum of per-fragment counts), and
usage.total_tokens = prompt_tokens + completion_tokens. -/
theorem usage_token_accounting (enc : String → Nat)
    (prompt request_id model : String) (start_time : Int)
    (outputs : List EngineOutput) (resp : ChatCompletionResponse)
    (h : generate_chat_completion enc prompt request_id model start_time outputs =
      Except.ok resp) :
    resp.usage.prompt_tokens = enc prompt ∧
    (∀ choice ∈ resp.choices, resp.usage.completion_tokens = enc choice.content) ∧
    resp.usage.total_tokens =
      resp.usage.prompt_tokens + resp.usage.completion_tokens := by
  unfold generate_chat_completion at h
  cases hl : outputs.getLast? with
  | none => rw [hl] at h; cases h
  | some final_output =>
    rw [hl] at h
    cases h
    refine ⟨rfl, ?_, rfl⟩
    intro choice hc
    rcases List.mem_singleton.mp hc with rfl
    rfl

/-- Concrete instance for `usage_token_accounting`: a single-output stream,
with `String.length` standing in for the tokenizer. -/
theorem usage_token_accounting_witness :
    generate_chat_completion String.length "User: hi\nAssistant: " "req-1"
        "deepseek-coder" 0 [⟨"Hello!", some "stop"⟩] =
      Except.ok (⟨"req-1", "chat.completion", 0, "deepseek-coder",
        [⟨0, "assistant", "Hello!", some "stop"⟩], ⟨20, 6, 26⟩⟩ :
          ChatCompletionResponse) ∧
    ((⟨20, 6, 26⟩ : Usage).prompt_tokens = String.length "User: hi\nAssistant: " ∧
    (∀ choice ∈ (⟨"req-1", "chat.completion", 0, "deepseek-coder",
        [⟨0, "assistant", "Hello!", some "stop"⟩], ⟨20, 6, 26⟩⟩ :
          ChatCompletionResponse).choices,
        (⟨20, 6, 26⟩ : Usage).completion_tokens = String.length choice.content) ∧
    (⟨20, 6, 26⟩ : Usage).total_tokens =
      (⟨20, 6, 26⟩ : Usage).prompt_tokens + (⟨20, 6, 26⟩ : Usage).completion_tokens) :=
  ⟨rfl,
    usage_token_accounting String.length "User: hi\nAssistant: " "req-1"
      "deepseek-coder" 0 [⟨"Hello!", some "stop"⟩]
      ⟨"req-1", "chat.completion", 0, "deepseek-coder",
        [⟨0, "assistant", "Hello!", some "stop"⟩], ⟨20, 6, 26⟩⟩ rfl⟩

/-- C6: on the non-streaming path, when the generation capability raises a
failure the caller receives HTTP 500 carrying the failure detail, and when
the stream completes without producing any output the caller receives HTTP
500 carrying the handler's inference-failure detail; both are distinct
from the HTTP 503 service-unavailable outcome returned when no engine is
loaded. -/
theorem engine_failure_internal_error (gen : EngineGen) (enc : String → Nat)
    (request_id : String) (start_time : Int) (request : ChatCompletionRequest)
    (msg : String) (hstream : request.stream = false) :
    (gen (format_messages request.messages)
        ⟨request.temperature, request.top_p, request.max_tokens, request.stop⟩
        request_id = Except.error msg →
      (create_chat_completion (some gen) enc request_id start_time request).1 =
        Except.error ⟨500, msg⟩) ∧
    (gen (format_messages request.messages)
        ⟨request.temperature, request.top_p, request.max_tokens, request.stop⟩
        request_id = Except.ok [] →
      (create_chat_completion (some gen) enc request_id start_time request).1 =
        Except.error ⟨500, "推理失败"⟩) ∧
    (create_chat_completion none enc request_id start_time request).1 =
      Except.error ⟨503, "模型尚未加载完成"⟩ ∧
    (500 : Nat) ≠ 503 := by
  refine ⟨?_, ?_, rfl, by decide⟩
  · intro hfail
    simp only [create_chat_completion, hstream, Bool.false_eq_true, if_false, hfail]
  · intro hempty
    simp only [create_chat_completion, hstream, Bool.false_eq_true, if_false, hempty,
      generate_chat_completion, List.getLast?]

/-- Concrete instance for `engine_failure_internal_error`: a default
(non-streaming) request whose engine iteration raises "engine crashed". -/
theorem engine_failure_internal_error_witness :
    ({ messages := [⟨"user", "hi"⟩] } : ChatCompletionRequest).stream = false ∧
    (((fun _ _ _ => Except.error "engine crashed") : EngineGen)
        (format_messages ({ messages := [⟨"user", "hi"⟩] } :
          ChatCompletionRequest).messages)
        ⟨({ messages := [⟨"user", "hi"⟩] } : ChatCompletionRequest).temperature,
          ({ messages := [⟨"user", "hi"⟩] } : ChatCompletionRequest).top_p,
          ({ messages := [⟨"user", "hi"⟩] } : ChatCompletionRequest).max_tokens,
          ({ messages := [⟨"user", "hi"⟩] } : ChatCompletionRequest).stop⟩
        "req-2" = Except.error "engine crashed" →
      (create_chat_completion
          (some ((fun _ _ _ => Except.error "engine crashed") : EngineGen))
          String.length "req-2" 0
          { messages := [⟨"user", "hi"⟩] }).1 =
        Except.error ⟨500, "engine crashed"⟩) ∧
    (((fun _ _ _ => Except.error "engine crashed") : EngineGen)
        (format_messages ({ messages := [⟨"user", "hi"⟩] } :
          ChatCompletionRequest).messages)
        ⟨({ messages := [⟨"user", "hi"⟩] } : ChatCompletionRequest).temperature,
          ({ messages := [⟨"user", "hi"⟩] } : ChatCompletionRequest).top_p,
          ({ messages := [⟨"user", "hi"⟩] } : ChatCompletionRequest).max_tokens,
          ({ messages := [⟨"user", "hi"⟩] } : ChatCompletionRequest).stop⟩
        "req-2" = Except.ok [] →
      (create_chat_completion
          (some ((fun _ _ _ => Except.error "engine crashed") : EngineGen))
          String.length "req-2" 0
          { messages := [⟨"user", "hi"⟩] }).1 =
        Except.error ⟨500, "推理失败"⟩) ∧
    (create_chat_completion none String.length "req-2" 0
        ({ messages := [⟨"user", "hi"⟩] } : ChatCompletionRequest)).1 =
      Except.error ⟨503, "模型尚未加载完成"⟩ ∧
    (500 : Nat) ≠ 503 :=
  ⟨rfl,
    engine_failure_internal_error ((fun _ _ _ => Except.error "engine crashed") :
      EngineGen) String.length "req-2" 0 { messages := [⟨"user", "hi"⟩] }
      "engine crashed" rfl⟩

/-- C9: when the inference engine is not loaded, both the chat-completion
and the text-completion endpoints fail immediately with HTTP 503, with no
generation request issued (the recorded call trace is empty), for every
request. -/
theorem engine_not_loaded_rejects_before_generation (enc : String → Nat)
    (request_id : String) (start_time now : Int)
    (chat_request : ChatCompletionRequest)
    (completion_request : CompletionRequest) :
    create_chat_completion none enc request_id start_time chat_request =
      (Except.error ⟨503, "模型尚未加载完成"⟩, []) ∧
    create_completion none now request_id completion_request =
      (Except.error ⟨503, "模型尚未加载完成"⟩, []) :=
  ⟨rfl, rfl⟩
